import Mathlib

/-!
Verification of the anti-abuse request-validation layer of the chopnad-game
repository (`src/app/lib/cryptoValidation.ts`, `src/app/lib/signMessage.ts`
and the `update-player-data` route in `src/app/page.tsx`).

The TypeScript code is shallowly embedded: JS numbers that stay integral are
modelled as `Int`/`Nat`, JS strings as `String` (the values involved are
ASCII), the in-memory `Set`/`Map` stores as lists, and the stateful route
handler as an explicit state-passing function.  `crypto.createHmac` is kept
abstract as a function parameter `hmac : String → String → String`
(secret first, then data); every theorem quantifies over it or instantiates
it with a concrete executable stand-in.  The one place where IEEE-754
semantics of a JS number matters (the `parseInt(suffix, 16)` of a 16-hex-digit
nonce suffix) is modelled by an explicit integer-to-binary64 rounding
function `roundF64`.
-/

/-! ## String helpers (kernel-computable models of the JS string operations) -/

def splitAux (sep : Char) : List Char → List Char → List (List Char)
  | [], acc => [acc.reverse]
  | c :: cs, acc => if c = sep then acc.reverse :: splitAux sep cs [] else splitAux sep cs (c :: acc)

/-- Model of the JS `s.split(sep)` for a one-character separator. -/
def jsSplit (sep : Char) (s : String) : List String :=
  (splitAux sep s.data []).map String.mk

/-- Model of the JS `s.substring(0, n)`. -/
def strTake (s : String) (n : Nat) : String := String.mk (s.data.take n)

/-- Model of the JS `s.substring(n)`. -/
def strDrop (s : String) (n : Nat) : String := String.mk (s.data.drop n)

/-- The JS `s.length` (all strings involved are ASCII). -/
def strLen (s : String) : Nat := s.data.length

def strAll (p : Char → Bool) (s : String) : Bool := s.data.all p

/-- Model of the JS `s.startsWith(p)`. -/
def jsStartsWith (s p : String) : Bool := s.data.take p.data.length = p.data

def isDigitChar (c : Char) : Bool := '0' ≤ c && c ≤ '9'

def isHexChar (c : Char) : Bool :=
  ('0' ≤ c && c ≤ '9') || ('a' ≤ c && c ≤ 'f') || ('A' ≤ c && c ≤ 'F')

def hexDigitVal (c : Char) : Nat :=
  if '0' ≤ c ∧ c ≤ '9' then c.toNat - 48
  else if 'a' ≤ c ∧ c ≤ 'f' then c.toNat - 87
  else c.toNat - 55

def hexValAux : List Char → Nat → Nat
  | [], acc => acc
  | c :: cs, acc => hexValAux cs (acc * 16 + hexDigitVal c)

/-- Exact integer value of a string of hex digits (the "read as an integer"
of the spec, with no floating-point rounding). -/
def hexVal (s : String) : Nat := hexValAux s.data 0

/-- Bit length of a natural number below `2 ^ 70`, by bounded search
(kernel-computable, unlike `Nat.log2`). -/
def bitLen (n : Nat) : Nat :=
  (List.range 70).foldl (fun acc i => if 2 ^ i ≤ n then i + 1 else acc) 0

/-- Rounding of a nonnegative integer to the nearest IEEE-754 binary64 value,
ties to even, expressed on naturals.  Integers below `2 ^ 53` are exact.
This models the value of a JS `Number` holding a parsed integer. -/
def roundF64 (n : Nat) : Nat :=
  if n < 2 ^ 53 then n
  else
    let e := bitLen n - 53
    let q := n / 2 ^ e
    let r := n % 2 ^ e
    let half := 2 ^ (e - 1)
    if r < half then q * 2 ^ e
    else if half < r then (q + 1) * 2 ^ e
    else if q % 2 = 0 then q * 2 ^ e else (q + 1) * 2 ^ e

def decDigitsVal : List Char → Nat → Nat
  | [], acc => acc
  | c :: cs, acc => decDigitsVal cs (acc * 10 + (c.toNat - 48))

/-- Model of the JS `parseInt(s, 10)`: optional sign, then the longest prefix
of decimal digits; `none` models `NaN`.  The parsed magnitude is subjected to
binary64 rounding, as JS numbers are doubles. -/
def jsParseIntDec (s : String) : Option Int :=
  match s.data with
  | [] => none
  | '-' :: rest =>
      let digits := rest.takeWhile isDigitChar
      if digits = [] then none else some (-(roundF64 (decDigitsVal digits 0) : Int))
  | '+' :: rest =>
      let digits := rest.takeWhile isDigitChar
      if digits = [] then none else some (roundF64 (decDigitsVal digits 0) : Int)
  | cs =>
      let digits := cs.takeWhile isDigitChar
      if digits = [] then none else some (roundF64 (decDigitsVal digits 0) : Int)

/-- Model of the JS `parseInt(s, 16)` on an unsigned hex string: longest
prefix of hex digits, `none` for `NaN`, binary64 rounding of the value. -/
def jsParseIntHex (s : String) : Option Nat :=
  let digits := s.data.takeWhile isHexChar
  if digits = [] then none else some (roundF64 (hexValAux digits 0))

/-! ## Data model (`cryptoValidation.ts`) -/

/-- `ValidationKeys` of `cryptoValidation.ts`: the three key strings. -/
structure ValidationKeys where
  temporalKey : String
  payloadKey : String
  identityKey : String
deriving DecidableEq, Repr

/-- `ValidationRequest` of `cryptoValidation.ts`. -/
structure ValidationRequest where
  playerAddress : String
  scoreAmount : Int
  transactionAmount : Int
  timestamp : Int
deriving DecidableEq, Repr

/-- `ClientValidationRequest` of `cryptoValidation.ts`. -/
structure ClientValidationRequest where
  playerAddress : String
  scoreAmount : Int
  transactionAmount : Int
  timestamp : Int
  clientNonce : String
deriving DecidableEq, Repr

/-- The three server-held secrets of `CryptoValidationService`. -/
structure Secrets where
  temporal : String
  payload : String
  identity : String
deriving DecidableEq, Repr

inductive SecurityLevel where
  | HIGH | MEDIUM | LOW | FAILED
deriving DecidableEq, Repr

/-- Result record `{ valid, error? }` returned by the per-key validators
and by `validateNonceWithChallenge`. -/
structure KeyCheck where
  valid : Bool
  error : Option String
deriving DecidableEq, Repr

/-- The used-value stores of `CryptoValidationService` (JS `Set<string>`
fields, modelled as lists with membership). -/
structure CryptoState where
  usedTemporalKeys : List String
  usedPayloadKeys : List String
  usedIdentityKeys : List String
  usedNonces : List String
deriving DecidableEq, Repr

/-- The JS destructuring `const [data, signature] = key.split(':')` followed
by the `if (!data || !signature)` falsiness check. -/
def splitKey (key : String) : Option (String × String) :=
  match jsSplit ':' key with
  | data :: sig :: _ => if data = "" ∨ sig = "" then none else some (data, sig)
  | _ => none

/-! ## Per-key validators (`cryptoValidation.ts` lines 506-657) -/

/-- `validateTemporalKey`: format, single-use, signature, then a 2-minute
freshness window on the timestamp embedded as the first `-`-field of `data`. -/
def validateTemporalKey (hmac : String → String → String) (secret : String)
    (usedTemporalKeys : List String) (temporalKey : String) (requestTimestamp : Int) : KeyCheck :=
  match splitKey temporalKey with
  | none => ⟨false, some "Invalid temporal key format"⟩
  | some (data, signature) =>
    if usedTemporalKeys.contains temporalKey then ⟨false, some "Temporal key already used"⟩
    else
      let expectedSignature := hmac secret data
      if signature ≠ expectedSignature then ⟨false, some "Invalid temporal key signature"⟩
      else
        let timestampStr := (jsSplit '-' data).headD ""
        match jsParseIntDec timestampStr with
        | none => ⟨false, some "Invalid timestamp in temporal key"⟩
        | some keyTimestamp =>
          if (requestTimestamp - keyTimestamp).natAbs > 2 * 60 * 1000 then
            ⟨false, some "Temporal key expired or invalid timestamp"⟩
          else ⟨true, none⟩

/-- `validatePayloadKey`: format, single-use, signature, then the four
`-`-fields of `data` must match the request's address, score and tx count. -/
def validatePayloadKey (hmac : String → String → String) (secret : String)
    (usedPayloadKeys : List String) (payloadKey : String)
    (playerAddress : String) (scoreAmount transactionAmount : Int) : KeyCheck :=
  match splitKey payloadKey with
  | none => ⟨false, some "Invalid payload key format"⟩
  | some (data, signature) =>
    if usedPayloadKeys.contains payloadKey then ⟨false, some "Payload key already used"⟩
    else
      let expectedSignature := hmac secret data
      if signature ≠ expectedSignature then ⟨false, some "Invalid payload key signature"⟩
      else
        let parts := jsSplit '-' data
        if parts.length ≠ 4 then ⟨false, some "Invalid payload key data format"⟩
        else
          let keyPlayerAddress := parts.headD ""
          let keyScoreAmount := parts.getD 1 ""
          let keyTransactionAmount := parts.getD 2 ""
          if keyPlayerAddress ≠ playerAddress then
            ⟨false, some "Player address mismatch in payload key"⟩
          else if jsParseIntDec keyScoreAmount ≠ some scoreAmount then
            ⟨false, some "Score amount mismatch in payload key"⟩
          else if jsParseIntDec keyTransactionAmount ≠ some transactionAmount then
            ⟨false, some "Transaction amount mismatch in payload key"⟩
          else ⟨true, none⟩

/-- `validateIdentityKey`: format, single-use, signature, then the three
`-`-fields of `data` must match the request's address, with a 2-minute
freshness window on the embedded timestamp. -/
def validateIdentityKey (hmac : String → String → String) (secret : String)
    (usedIdentityKeys : List String) (identityKey : String)
    (playerAddress : String) (requestTimestamp : Int) : KeyCheck :=
  match splitKey identityKey with
  | none => ⟨false, some "Invalid identity key format"⟩
  | some (data, signature) =>
    if usedIdentityKeys.contains identityKey then ⟨false, some "Identity key already used"⟩
    else
      let expectedSignature := hmac secret data
      if signature ≠ expectedSignature then ⟨false, some "Invalid identity key signature"⟩
      else
        let parts := jsSplit '-' data
        if parts.length ≠ 3 then ⟨false, some "Invalid identity key data format"⟩
        else
          let keyPlayerAddress := parts.headD ""
          let keyTimestamp := parts.getD 1 ""
          if keyPlayerAddress ≠ playerAddress then
            ⟨false, some "Player address mismatch in identity key"⟩
          else
            match jsParseIntDec keyTimestamp with
            | none => ⟨false, some "Invalid timestamp in identity key"⟩
            | some identityTimestamp =>
              if (requestTimestamp - identityTimestamp).natAbs > 2 * 60 * 1000 then
                ⟨false, some "Identity key timestamp too old"⟩
              else ⟨true, none⟩

/-- `signClientKeys`: the server re-signs each client-supplied key string
with the corresponding server secret, producing `clientKey ++ ":" ++ hmac`. -/
def signClientKeys (hmac : String → String → String) (sec : Secrets)
    (clientKeys : ValidationKeys) : ValidationKeys :=
  { temporalKey := clientKeys.temporalKey ++ ":" ++ hmac sec.temporal clientKeys.temporalKey
    payloadKey := clientKeys.payloadKey ++ ":" ++ hmac sec.payload clientKeys.payloadKey
    identityKey := clientKeys.identityKey ++ ":" ++ hmac sec.identity clientKeys.identityKey }

/-- `markKeysAsUsed`: insert all three key strings into their used-sets. -/
def markKeysAsUsed (st : CryptoState) (keys : ValidationKeys) : CryptoState :=
  { st with
    usedTemporalKeys := keys.temporalKey :: st.usedTemporalKeys
    usedPayloadKeys := keys.payloadKey :: st.usedPayloadKeys
    usedIdentityKeys := keys.identityKey :: st.usedIdentityKeys }

/-- Result record of `validateKeys`. -/
structure ValidateKeysResult where
  valid : Bool
  errors : List String
  securityLevel : SecurityLevel
deriving DecidableEq, Repr

/-- `validateKeys` (`cryptoValidation.ts` lines 405-477): re-sign the client
keys, validate the three signed keys independently, count the passes, map
the count to a security level, accept only on 3/3, and on acceptance mark
all three signed key strings as used. -/
def validateKeys (hmac : String → String → String) (sec : Secrets) (st : CryptoState)
    (clientValidationKeys : ValidationKeys) (request : ValidationRequest) :
    ValidateKeysResult × CryptoState :=
  let serverSignedKeys := signClientKeys hmac sec clientValidationKeys
  let temporalValid := validateTemporalKey hmac sec.temporal st.usedTemporalKeys
    serverSignedKeys.temporalKey request.timestamp
  let payloadValid := validatePayloadKey hmac sec.payload st.usedPayloadKeys
    serverSignedKeys.payloadKey request.playerAddress request.scoreAmount request.transactionAmount
  let identityValid := validateIdentityKey hmac sec.identity st.usedIdentityKeys
    serverSignedKeys.identityKey request.playerAddress request.timestamp
  let errors :=
    (if temporalValid.valid then []
     else ["Temporal key validation failed: " ++ temporalValid.error.getD ""]) ++
    (if payloadValid.valid then []
     else ["Payload key validation failed: " ++ payloadValid.error.getD ""]) ++
    (if identityValid.valid then []
     else ["Identity key validation failed: " ++ identityValid.error.getD ""])
  let validKeyCount :=
    (if temporalValid.valid then 1 else 0) + (if payloadValid.valid then 1 else 0) +
    (if identityValid.valid then 1 else 0)
  let securityLevel :=
    if validKeyCount = 3 then SecurityLevel.HIGH
    else if validKeyCount = 2 then SecurityLevel.MEDIUM
    else if validKeyCount = 1 then SecurityLevel.LOW
    else SecurityLevel.FAILED
  let allValid := validKeyCount = 3
  let st' := if allValid then markKeysAsUsed st serverSignedKeys else st
  (⟨decide allValid, errors, securityLevel⟩, st')

/-! ## Nonce / challenge validation (`cryptoValidation.ts` lines 84-178) -/

/-- The regex test `/^[a-f0-9]{32}$/i` of the nonce format check. -/
def isHex32 (s : String) : Bool := strLen s = 32 && strAll isHexChar s

/-- `validateNonceWithChallenge` (`cryptoValidation.ts` lines 117-178):
format, embedded challenge signature, challenge age window `[-60s, +5min]`,
suffix length and suffix predictability.  A `NaN` from `parseInt` falls
through the numeric comparisons exactly as in JS (every comparison with
`NaN` is false).  Note that this function neither consults nor updates the
used-nonce set. -/
def validateNonceWithChallenge (hmac : String → String → String) (temporalSecret : String)
    (now : Int) (clientNonce playerAddress : String) : KeyCheck :=
  if ¬ isHex32 clientNonce then ⟨false, some "Invalid nonce format"⟩
  else
    let challengePart := strTake clientNonce 16
    let nonceSuffix := strDrop clientNonce 16
    let timestampHex := strTake challengePart 8
    let receivedSignature := strTake (strDrop challengePart 8) 8
    let challengeData := playerAddress ++ "-" ++ timestampHex
    let expectedSignature := strTake (hmac temporalSecret challengeData) 8
    if receivedSignature ≠ expectedSignature then ⟨false, some "Invalid challenge signature"⟩
    else
      let ageTest : Option String :=
        match jsParseIntHex timestampHex with
        | none => none
        | some ts =>
          let challengeAge := now - (ts : Int) * 1000
          if challengeAge > 5 * 60 * 1000 then some "Challenge expired"
          else if challengeAge < -(60 * 1000) then some "Challenge timestamp invalid"
          else none
      match ageTest with
      | some err => ⟨false, some err⟩
      | none =>
        if strLen nonceSuffix ≠ 16 then ⟨false, some "Invalid nonce suffix length"⟩
        else
          match jsParseIntHex nonceSuffix with
          | none => ⟨true, none⟩
          | some suffixNum =>
            if suffixNum = 0 ∨ suffixNum % 1000 = 0 then ⟨false, some "Predictable nonce suffix"⟩
            else ⟨true, none⟩

/-- The fresh random values drawn inside `generateSecureValidationKeys`
(`crypto.randomBytes(..).toString('hex')`), supplied as an oracle. -/
structure KeyRandomness where
  temporalNonce : String
  payloadSalt : String
  sessionId : String
deriving DecidableEq, Repr

/-- `generateSecureValidationKeys` (`cryptoValidation.ts` lines 181-213). -/
def generateSecureValidationKeys (hmac : String → String → String) (sec : Secrets)
    (r : ClientValidationRequest) (rand : KeyRandomness) : ValidationKeys :=
  let temporalData := toString r.timestamp ++ "-" ++ rand.temporalNonce ++ "-" ++ r.clientNonce
  let temporalKey := hmac sec.temporal temporalData
  let payloadData := r.playerAddress ++ "-" ++ toString r.scoreAmount ++ "-" ++
    toString r.transactionAmount ++ "-" ++ rand.payloadSalt ++ "-" ++ toString r.timestamp
  let payloadKey := hmac sec.payload payloadData
  let identityData := r.playerAddress ++ "-" ++ toString r.timestamp ++ "-" ++
    rand.sessionId ++ "-" ++ r.clientNonce
  let identityKey := hmac sec.identity identityData
  { temporalKey := temporalData ++ ":" ++ temporalKey
    payloadKey := payloadData ++ ":" ++ payloadKey
    identityKey := identityData ++ ":" ++ identityKey }

/-- Result record of `validateClientRequest`. -/
structure ClientValidationResult where
  valid : Bool
  errors : List String
  securityLevel : SecurityLevel
  validationKeys : Option ValidationKeys
deriving DecidableEq, Repr

/-- The error list produced by step 3 of `validateClientRequest` (nonce
format, then reuse against the used-nonce set, then challenge validation). -/
def clientRequestNonceErrors (hmac : String → String → String) (sec : Secrets) (now : Int)
    (st : CryptoState) (r : ClientValidationRequest) : List String :=
  if r.clientNonce = "" ∨ strLen r.clientNonce ≠ 32 then ["Invalid client nonce format"]
  else if st.usedNonces.contains r.clientNonce then ["Nonce has already been used"]
  else
    let nonceValidation := validateNonceWithChallenge hmac sec.temporal now r.clientNonce r.playerAddress
    if nonceValidation.valid then []
    else ["Nonce challenge validation failed: " ++ nonceValidation.error.getD ""]

/-- The full error list collected by `validateClientRequest` (`errors.push`
sites, in source order): basic fields, timestamp tolerance, nonce checks,
duplicate request key, per-window rate limit. -/
def clientRequestErrors (hmac : String → String → String) (sec : Secrets) (now : Int)
    (st : CryptoState) (r : ClientValidationRequest) : List String :=
  (if r.playerAddress = "" ∨ ¬ jsStartsWith r.playerAddress "0x" then ["Invalid player address"] else []) ++
  (if r.scoreAmount < 0 ∨ r.scoreAmount > 1000000 then ["Invalid score amount"] else []) ++
  (if r.transactionAmount < 0 ∨ r.transactionAmount > 1000 then ["Invalid transaction amount"] else []) ++
  (if (now - r.timestamp).natAbs > 5 * 60 * 1000 then ["Request timestamp too old or invalid"] else []) ++
  clientRequestNonceErrors hmac sec now st r ++
  (if st.usedTemporalKeys.contains (r.playerAddress ++ "-" ++ r.clientNonce) then
    ["Duplicate request nonce detected"] else []) ++
  (if st.usedPayloadKeys.contains (r.playerAddress ++ "-" ++ toString (r.timestamp.fdiv (30 * 1000))) then
    ["Too many requests in timestamp window"] else [])

/-- `validateClientRequest` (`cryptoValidation.ts` lines 254-336): collect
all validation errors (`clientRequestErrors`) and, only when there is none,
generate the secure keys and mark the request key, the window key and the
client nonce as used — all in the same step that validated them. -/
def validateClientRequest (hmac : String → String → String) (sec : Secrets) (now : Int)
    (st : CryptoState) (r : ClientValidationRequest) (rand : KeyRandomness) :
    ClientValidationResult × CryptoState :=
  let requestKey := r.playerAddress ++ "-" ++ r.clientNonce
  let timestampWindow := r.timestamp.fdiv (30 * 1000)
  let windowKey := r.playerAddress ++ "-" ++ toString timestampWindow
  let errors := clientRequestErrors hmac sec now st r
  if errors = [] then
    let validationKeys := generateSecureValidationKeys hmac sec r rand
    let st' := { st with
      usedTemporalKeys := requestKey :: st.usedTemporalKeys
      usedPayloadKeys := windowKey :: st.usedPayloadKeys
      usedNonces := r.clientNonce :: st.usedNonces }
    (⟨true, [], SecurityLevel.HIGH, some validationKeys⟩, st')
  else
    (⟨false, errors, SecurityLevel.FAILED, none⟩, st)

/-! ## The `update-player-data` route (`src/app/page.tsx`, `POST`) -/

/-- An entry of the in-memory `hourlyLimits` map of the route module. -/
structure HourEntry where
  score : Int
  transactions : Int
  timestamp : Int
deriving DecidableEq, Repr

/-- An entry of the in-memory `scoreTracking` map of the route module. -/
structure BehaviorEntry where
  totalScore : Int
  requests : Int
  firstRequest : Int
deriving DecidableEq, Repr

/-- The `result` object stored in `processedRequests`: either the
`{ processing: true }` placeholder or the final success payload. -/
inductive StoredResult where
  | processing
  | success (nonce : String)
deriving DecidableEq, Repr

/-- An entry of the `processedRequests` deduplication map. -/
structure DedupEntry where
  timestamp : Int
  result : StoredResult
deriving DecidableEq, Repr

/-- The route module's in-memory state: the three maps plus the state of the
singleton `CryptoValidationService`. -/
structure ServerState where
  hourlyLimits : List (String × HourEntry)
  scoreTracking : List (String × BehaviorEntry)
  processedRequests : List (String × DedupEntry)
  crypto : CryptoState
deriving DecidableEq, Repr

/-- The JSON body of a submit request (`playerAddress`, `scoreAmount`,
`transactionAmount`, `validationKeys`); `none` models a missing
`validationKeys` object. -/
structure PostRequest where
  playerAddress : String
  scoreAmount : Int
  transactionAmount : Int
  validationKeys : Option ValidationKeys
deriving DecidableEq, Repr

/-- Everything the handler reads from its environment and collaborators:
the origin check and the two per-minute rate-limit tiers (`auth.ts` and
`rate-limiter.ts`, whose sources are not part of the repository snapshot,
surface here only through their boolean verdicts), the `x-csrf-token`
header, the address-format verdict of `isValidAddress` (`blockchain.ts`,
likewise external), the wallet configuration flag, the fresh random nonce
generated inside `signScoreSubmission` (`signMessage.ts` lines 91-116,
`crypto.randomBytes(32)`), whether the blockchain write succeeds, and the
clock. -/
structure PostEnv where
  originValid : Bool
  ipAllowed : Bool
  playerAllowed : Bool
  csrfToken : Option String
  addressValid : Bool
  privateKeySet : Bool
  serverNonce : String
  commitOk : Bool
  now : Int
deriving DecidableEq, Repr

/-- The distinct responses the handler can produce. -/
inductive PostResponse where
  | invalidOrigin
  | ipRateLimited
  | playerRateLimited
  | hourlyScoreLimited
  | hourlyTxLimited
  | requestTooFrequent
  | suspiciousPattern
  | missingValidationKeys
  | cryptoValidationFailed (errors : List String) (securityLevel : SecurityLevel)
  | invalidCsrf
  | missingRequiredFields
  | invalidAddress
  | negativeAmounts
  | scoreTooHigh
  | tooManyTransactions
  | scoreTooSmall
  | scorePerTxTooHigh
  | scorePerTxTooLow
  | duplicateResponse (stored : StoredResult)
  | serverConfigError
  | success (nonce : String)
  | commitFailed
deriving DecidableEq, Repr

/-- HTTP status code of each response, as produced by the handler. -/
def httpStatus : PostResponse → Nat
  | .invalidOrigin => 403
  | .ipRateLimited => 429
  | .playerRateLimited => 429
  | .hourlyScoreLimited => 429
  | .hourlyTxLimited => 429
  | .requestTooFrequent => 429
  | .suspiciousPattern => 429
  | .missingValidationKeys => 400
  | .cryptoValidationFailed _ _ => 401
  | .invalidCsrf => 401
  | .missingRequiredFields => 400
  | .invalidAddress => 400
  | .negativeAmounts => 400
  | .scoreTooHigh => 400
  | .tooManyTransactions => 400
  | .scoreTooSmall => 400
  | .scorePerTxTooHigh => 400
  | .scorePerTxTooLow => 400
  | .duplicateResponse _ => 200
  | .serverConfigError => 500
  | .success _ => 200
  | .commitFailed => 500

/-- `isValidCSRFFormat` (`page.tsx`): four nonempty `-`-parts ending in
`client`, with a parseable timestamp at most 5 minutes old. -/
def isValidCSRFFormat (now : Int) (token : String) : Bool :=
  match jsSplit '-' token with
  | [sessionId, timestampStr, nonce, suffix] =>
    if sessionId = "" ∨ timestampStr = "" ∨ nonce = "" ∨ suffix ≠ "client" then false
    else
      match jsParseIntDec timestampStr with
      | none => false
      | some timestamp => decide (now - timestamp ≤ 5 * 60 * 1000)
  | _ => false

/-- `true` when `validationKeys` is missing or any of the three key strings
is falsy (the `!validationKeys || !validationKeys.temporalKey || ...` check). -/
def missingKeys (k : Option ValidationKeys) : Bool :=
  match k with
  | none => true
  | some keys => keys.temporalKey = "" ∨ keys.payloadKey = "" ∨ keys.identityKey = ""

/-- The handler's outcome: response, resulting module state, and whether the
blockchain write (`walletClient.writeContract`) was invoked. -/
structure PostOut where
  resp : PostResponse
  state : ServerState
  commitAttempted : Bool
deriving DecidableEq, Repr

/-- Final stage of the `POST` handler of the `update-player-data` route
(`page.tsx`, security layers 8-9 and the blockchain transaction): server-side
signing (whose fresh random nonce keys the deduplication lookup), dedup
lookup with `duplicate` short-circuit, `processing` placeholder insert,
blockchain write, and — only after a successful write — the `hourlyLimits`
/ `scoreTracking` advance and the final dedup store.  A failing write lands
in the route's catch handler, which returns an error response without
touching the maps. -/
def postCommitStage (env : PostEnv) (st : ServerState) (hourlyKey : String)
    (hourlyData : HourEntry) (behaviorData : BehaviorEntry) (req : PostRequest) : PostOut :=
  let nonce := env.serverNonce
  let dedupKey := req.playerAddress ++ "-" ++ nonce
  match st.processedRequests.lookup dedupKey with
  | some existing => ⟨.duplicateResponse existing.result, st, false⟩
  | none =>
    let st2 := { st with
      processedRequests := (dedupKey, ⟨env.now, .processing⟩) :: st.processedRequests }
    if ¬ env.privateKeySet then ⟨.serverConfigError, st2, false⟩
    else if env.commitOk then
      let st3 := { st2 with
        hourlyLimits := (hourlyKey,
          ⟨hourlyData.score + req.scoreAmount,
           hourlyData.transactions + req.transactionAmount,
           hourlyData.timestamp⟩) :: st2.hourlyLimits
        scoreTracking := (req.playerAddress,
          ⟨behaviorData.totalScore + req.scoreAmount,
           behaviorData.requests + 1,
           behaviorData.firstRequest⟩) :: st2.scoreTracking }
      let st4 := { st3 with
        processedRequests := (dedupKey, ⟨env.now, .success nonce⟩) :: st3.processedRequests }
      ⟨.success nonce, st4, true⟩
    else ⟨.commitFailed, st2, true⟩

/-- `POST` handler stage for security layers 4-7 of `page.tsx` (these run
after the cryptographic validation): CSRF shape check, required fields,
address format, amount range and score-per-transaction checks.  The
score-per-transaction ratio comparisons, float divisions in JS, are
expressed by exact cross-multiplication under `transactionAmount > 0`. -/
def postFieldChecksStage (env : PostEnv) (st : ServerState) (hourlyKey : String)
    (hourlyData : HourEntry) (behaviorData : BehaviorEntry) (req : PostRequest) : PostOut :=
  if (match env.csrfToken with
      | none => true
      | some tok => ¬ isValidCSRFFormat env.now tok) then ⟨.invalidCsrf, st, false⟩
  else if req.playerAddress = "" then ⟨.missingRequiredFields, st, false⟩
  else if ¬ env.addressValid then ⟨.invalidAddress, st, false⟩
  else if req.scoreAmount < 0 ∨ req.transactionAmount < 0 then ⟨.negativeAmounts, st, false⟩
  else if req.scoreAmount > 1000 then ⟨.scoreTooHigh, st, false⟩
  else if req.transactionAmount > 3 then ⟨.tooManyTransactions, st, false⟩
  else if req.scoreAmount < 1 ∧ req.scoreAmount ≠ 0 then ⟨.scoreTooSmall, st, false⟩
  else if req.transactionAmount > 0 ∧
      req.scoreAmount > 1000 * req.transactionAmount then ⟨.scorePerTxTooHigh, st, false⟩
  else if req.transactionAmount > 0 ∧
      req.scoreAmount < 5 * req.transactionAmount then ⟨.scorePerTxTooLow, st, false⟩
  else postCommitStage env st hourlyKey hourlyData behaviorData req

/-- `POST` handler stage for security layer 3 of `page.tsx`: presence of
the three validation keys and `validateKeys` with `timestamp: Date.now()`;
on success it proceeds to `postFieldChecksStage` with the updated crypto
state. -/
def postValidationStage (hmac : String → String → String) (sec : Secrets) (env : PostEnv)
    (st : ServerState) (hourlyKey : String) (hourlyData : HourEntry)
    (behaviorData : BehaviorEntry) (req : PostRequest) : PostOut :=
  if missingKeys req.validationKeys then ⟨.missingValidationKeys, st, false⟩
  else
    let keys := req.validationKeys.getD ⟨"", "", ""⟩
    let validationRequest : ValidationRequest :=
      ⟨req.playerAddress, req.scoreAmount, req.transactionAmount, env.now⟩
    let cryptoOut := validateKeys hmac sec st.crypto keys validationRequest
    let st1 := { st with crypto := cryptoOut.2 }
    if ¬ cryptoOut.1.valid then
      ⟨.cryptoValidationFailed cryptoOut.1.errors cryptoOut.1.securityLevel, st1, false⟩
    else postFieldChecksStage env st1 hourlyKey hourlyData behaviorData req

/-- The `POST` handler of the `update-player-data` route (`page.tsx`), in
source order: origin check; per-IP and per-player per-minute rate tiers;
prospective hourly score and transaction ceilings (the check uses the
prospective sum, before any commit); minimum-interval and average-rate
behavioral checks; then `postValidationStage` and `postCommitStage`.  The
average-score-per-minute comparison, a float division in JS, is expressed
by exact cross-multiplication under `sessionDuration > 0`. -/
def post (hmac : String → String → String) (sec : Secrets) (env : PostEnv)
    (st : ServerState) (req : PostRequest) : PostOut :=
  if ¬ env.originValid then ⟨.invalidOrigin, st, false⟩
  else if ¬ env.ipAllowed then ⟨.ipRateLimited, st, false⟩
  else if ¬ env.playerAllowed then ⟨.playerRateLimited, st, false⟩
  else
    let hourlyKey := req.playerAddress ++ ":" ++ toString (env.now.fdiv (60 * 60 * 1000))
    let hourlyData := ((st.hourlyLimits.lookup hourlyKey).getD ⟨0, 0, env.now⟩)
    if hourlyData.score + req.scoreAmount > 30000 then ⟨.hourlyScoreLimited, st, false⟩
    else if hourlyData.transactions + req.transactionAmount > 120 then ⟨.hourlyTxLimited, st, false⟩
    else
      let behaviorData := ((st.scoreTracking.lookup req.playerAddress).getD ⟨0, 0, env.now⟩)
      let timeSinceLastRequest := env.now - (behaviorData.firstRequest + behaviorData.requests * 1000)
      if behaviorData.requests > 0 ∧ timeSinceLastRequest < 5000 then ⟨.requestTooFrequent, st, false⟩
      else
        let sessionDuration := env.now - behaviorData.firstRequest
        if (sessionDuration > 0 ∧ behaviorData.totalScore * 60000 > 3000 * sessionDuration) ∧
            behaviorData.requests > 5 then ⟨.suspiciousPattern, st, false⟩
        else postValidationStage hmac sec env st hourlyKey hourlyData behaviorData req

/-! ## Concrete executable instantiations used by witnesses -/

def hashStep (a : Nat) (c : Char) : Nat := (a * 31 + c.toNat) % 4294967296

def strHash (s : String) : Nat := s.data.foldl hashStep 5381

def natToHexAux : Nat → Nat → List Char
  | 0, _ => []
  | fuel + 1, n =>
    natToHexAux fuel (n / 16) ++
      [if n % 16 < 10 then Char.ofNat (48 + n % 16) else Char.ofNat (87 + n % 16)]

def natToHex16 (n : Nat) : String := String.mk (natToHexAux 16 n)

/-- A concrete, executable stand-in for `crypto.createHmac('sha256', secret)
.update(data).digest('hex')`: deterministic in both arguments and producing
32 lowercase hex characters.  Witness theorems instantiate the abstract
`hmac` parameter with it. -/
def hmacC (secret data : String) : String :=
  natToHex16 (strHash (secret ++ "|" ++ data)) ++ natToHex16 (strHash (data ++ "|" ++ secret))

def secretsC : Secrets := ⟨"temporal-secret-0001", "payload-secret-0002", "identity-secret-0003"⟩

def addrC : String := "0x1234567890123456789012345678901234567890"

/-- `generateClientValidationKeys` (`cryptoValidation.ts` lines 836-868): the
client-side generator actually used by `score-api.ts`; it emits the three raw
`data` strings (no signature part), with `timestamp = Date.now()` and the
random components passed explicitly here. -/
def generateClientValidationKeys (playerAddress : String) (scoreAmount transactionAmount : Int)
    (timestamp : Int) (temporalNonce payloadSalt sessionId : String) : ValidationKeys :=
  { temporalKey := toString timestamp ++ "-" ++ temporalNonce
    payloadKey := playerAddress ++ "-" ++ toString scoreAmount ++ "-" ++
      toString transactionAmount ++ "-" ++ payloadSalt
    identityKey := playerAddress ++ "-" ++ toString timestamp ++ "-" ++ sessionId }

def emptyCryptoState : CryptoState := ⟨[], [], [], []⟩

def emptyServerState : ServerState := ⟨[], [], [], emptyCryptoState⟩

def isSuccess : PostResponse → Bool
  | .success _ => true
  | _ => false

/-! Concrete fixtures.  Each key triple below is built by
`generateClientValidationKeys`, i.e. it consists of the raw `data` strings a
client assembles without ever invoking the HMAC: a client that holds no
server secret can produce exactly these strings. -/

def keys1C : ValidationKeys := generateClientValidationKeys addrC 500 1 7200000000 "f001" "f002" "f003"

def req1C : ValidationRequest := ⟨addrC, 500, 1, 7200000000⟩

def keys2C : ValidationKeys := generateClientValidationKeys addrC 100 1 7200000 "a2" "b2" "c2"

def req2C : PostRequest := ⟨addrC, 100, 1, some keys2C⟩

def env2a : PostEnv :=
  { originValid := true, ipAllowed := true, playerAllowed := true
    csrfToken := some "s-7200000-x-client", addressValid := true, privateKeySet := true
    serverNonce := "6fa1", commitOk := true, now := 7200000 }

def out2a : PostOut := post hmacC secretsC env2a emptyServerState req2C

def env2b : PostEnv :=
  { originValid := true, ipAllowed := true, playerAllowed := true
    csrfToken := some "s-7206000-x-client", addressValid := true, privateKeySet := true
    serverNonce := "6fb2", commitOk := true, now := 7206000 }

def out2b : PostOut := post hmacC secretsC env2b out2a.state req2C

def st5 : ServerState :=
  { hourlyLimits := [(addrC ++ ":0", ⟨29900, 10, 100⟩)]
    scoreTracking := [(addrC, ⟨29900, 3, 0⟩)]
    processedRequests := []
    crypto := emptyCryptoState }

def keys5a : ValidationKeys := generateClientValidationKeys addrC 200 1 3500000 "a5" "b5" "c5"

def keys5b : ValidationKeys := generateClientValidationKeys addrC 100 1 3500000 "d5" "e5" "f5"

def env5 : PostEnv :=
  { originValid := true, ipAllowed := true, playerAllowed := true
    csrfToken := some "s-3500000-x-client", addressValid := true, privateKeySet := true
    serverNonce := "n5", commitOk := true, now := 3500000 }

def out5a : PostOut := post hmacC secretsC env5 st5 ⟨addrC, 200, 1, some keys5a⟩

def out5b : PostOut := post hmacC secretsC env5 st5 ⟨addrC, 100, 1, some keys5b⟩

def keys8C : ValidationKeys := generateClientValidationKeys addrC 100 1 9000000 "a8" "b8" "c8"

def env8 : PostEnv :=
  { originValid := true, ipAllowed := true, playerAllowed := true
    csrfToken := some "s-9000000-x-client", addressValid := true, privateKeySet := true
    serverNonce := "n8", commitOk := false, now := 9000000 }

def out8 : PostOut := post hmacC secretsC env8 emptyServerState ⟨addrC, 100, 1, some keys8C⟩

def keys10a : ValidationKeys := generateClientValidationKeys addrC 100 1 0 "a1" "a2" "a3"

def keys10b : ValidationKeys := generateClientValidationKeys addrC 100 1 1000000 "b1" "b2" "b3"

def keys10c : ValidationKeys := generateClientValidationKeys addrC 100 1 1001000 "c1" "c2" "c3"

def env10a : PostEnv :=
  { originValid := true, ipAllowed := true, playerAllowed := true
    csrfToken := some "s-0-x-client", addressValid := true, privateKeySet := true
    serverNonce := "na", commitOk := true, now := 0 }

def env10b : PostEnv :=
  { originValid := true, ipAllowed := true, playerAllowed := true
    csrfToken := some "s-1000000-x-client", addressValid := true, privateKeySet := true
    serverNonce := "nb", commitOk := true, now := 1000000 }

def env10c : PostEnv :=
  { originValid := true, ipAllowed := true, playerAllowed := true
    csrfToken := some "s-1001000-x-client", addressValid := true, privateKeySet := true
    serverNonce := "nc", commitOk := true, now := 1001000 }

def out10a : PostOut := post hmacC secretsC env10a emptyServerState ⟨addrC, 100, 1, some keys10a⟩

def out10b : PostOut := post hmacC secretsC env10b out10a.state ⟨addrC, 100, 1, some keys10b⟩

def out10c : PostOut := post hmacC secretsC env10c out10b.state ⟨addrC, 100, 1, some keys10c⟩

/-- A 32-hex-character client nonce whose challenge part is correctly signed
(under `hmacC`) for `addrC` and timestamp `0x00989680` seconds, and whose
16-hex-character suffix reads (exactly) as `10^18 + 1000`, a multiple of
1000 that is not representable in binary64. -/
def nonce9 : String :=
  "00989680" ++ strTake (hmacC secretsC.temporal (addrC ++ "-" ++ "00989680")) 8 ++
    "0de0b6b3a76403e8"

/-! ## Claim theorems -/

set_option maxRecDepth 200000

/-- C1: a key triple fabricated by a client that holds no server secret —
the three raw `data` strings of `generateClientValidationKeys`, produced
without any HMAC invocation — does not fail `validateKeys` with a signature
mismatch: because the route re-signs the client-supplied strings with the
server secrets before checking them, the triple is accepted outright
(`valid = true`, `securityLevel = HIGH`, no errors). -/
theorem forged_triple_accepted :
    (validateKeys hmacC secretsC emptyCryptoState keys1C req1C).1.valid = true ∧
    (validateKeys hmacC secretsC emptyCryptoState keys1C req1C).1.securityLevel = .HIGH ∧
    (validateKeys hmacC secretsC emptyCryptoState keys1C req1C).1.errors = [] := by
  decide

/-- C2: submitting the identical body twice (same identity, same client key
material) six seconds apart does not yield a `duplicate:true` replay of the
first receipt: the dedup fingerprint uses the fresh random nonce generated
by `signScoreSubmission` on each call, so the second call's fingerprint is
absent from the cache, and the request is instead rejected 401 by the
key-reuse check; the deduplication layer never fires. -/
theorem identical_resubmission_not_deduplicated :
    out2a.resp = .success "6fa1" ∧
    out2a.commitAttempted = true ∧
    out2a.state.processedRequests.lookup (addrC ++ "-" ++ "6fb2") = none ∧
    out2b.resp = .cryptoValidationFailed
      ["Temporal key validation failed: Temporal key already used",
       "Payload key validation failed: Payload key already used",
       "Identity key validation failed: Identity key already used"] .FAILED ∧
    httpStatus out2b.resp = 401 ∧
    out2b.commitAttempted = false := by
  decide

/-- C5: with the identity's current-hour accepted score sum at 29,900, a
request for 200 more points is rejected with the 429 hourly-ceiling
response before any commit (prospective total 30,100 > 30,000), while a
request for 100 points (prospective total exactly 30,000) is accepted. -/
theorem hourly_score_ceiling_boundary :
    out5a.resp = .hourlyScoreLimited ∧
    httpStatus out5a.resp = 429 ∧
    out5a.commitAttempted = false ∧
    out5a.state = st5 ∧
    out5b.resp = .success "n5" ∧
    out5b.commitAttempted = true := by
  decide

/-- C8: when the blockchain commit fails after the dedup placeholder has
been reserved, the catch handler returns an error response without touching
`processedRequests`: the entry for the request's fingerprint remains the
`processing` placeholder instead of transitioning to a terminal failed
outcome. -/
theorem failed_commit_leaves_processing_placeholder :
    out8.resp = .commitFailed ∧
    out8.commitAttempted = true ∧
    out8.state.processedRequests.lookup (addrC ++ "-" ++ "n8") =
      some ⟨9000000, .processing⟩ := by
  decide

/-- C10: after two accepted submissions at t = 0 and t = 1,000,000 ms, a
third submission only 1,000 ms after the most recent one is accepted rather
than rejected: the minimum-interval check compares `now` against the
synthetic value `firstRequest + requests * 1000` (here 2,000 ms), not
against the time of the identity's most recent submission. -/
theorem third_submission_within_five_seconds_accepted :
    out10a.resp = .success "na" ∧
    out10b.resp = .success "nb" ∧
    (1001000 : Int) - 1000000 < 5000 ∧
    out10c.resp = .success "nc" := by
  decide

/-- C9 counterexample: a nonce whose 16-hex-character suffix reads exactly
as `10^18 + 1000` — an exact multiple of 1000 above `2^53` — passes
`validateNonceWithChallenge` instead of being rejected as predictable,
because `parseInt` rounds the suffix to the binary64 value `10^18 + 1024`. -/
theorem large_multiple_of_1000_suffix_not_rejected :
    validateNonceWithChallenge hmacC secretsC.temporal 10000000000 nonce9 addrC = ⟨true, none⟩ ∧
    hexVal "0de0b6b3a76403e8" % 1000 = 0 ∧
    2 ^ 53 < hexVal "0de0b6b3a76403e8" := by
  decide

theorem commitStage_frame (env : PostEnv) (st : ServerState) (hourlyKey : String)
    (hourlyData : HourEntry) (behaviorData : BehaviorEntry) (req : PostRequest) :
    (isSuccess (postCommitStage env st hourlyKey hourlyData behaviorData req).resp = false →
      (postCommitStage env st hourlyKey hourlyData behaviorData req).state.hourlyLimits =
        st.hourlyLimits ∧
      (postCommitStage env st hourlyKey hourlyData behaviorData req).state.scoreTracking =
        st.scoreTracking) ∧
    (isSuccess (postCommitStage env st hourlyKey hourlyData behaviorData req).resp = true →
      env.commitOk = true ∧
      (postCommitStage env st hourlyKey hourlyData behaviorData req).commitAttempted = true) := by
  simp only [postCommitStage]
  repeat' split
  all_goals
    first
      | exact ⟨fun _ => ⟨rfl, rfl⟩, fun h => Bool.noConfusion h⟩
      | refine ⟨fun h => Bool.noConfusion h, fun _ => ⟨?_, rfl⟩⟩
  all_goals assumption

theorem fieldChecksStage_frame (env : PostEnv) (st : ServerState) (hourlyKey : String)
    (hourlyData : HourEntry) (behaviorData : BehaviorEntry) (req : PostRequest) :
    (isSuccess (postFieldChecksStage env st hourlyKey hourlyData behaviorData req).resp = false →
      (postFieldChecksStage env st hourlyKey hourlyData behaviorData req).state.hourlyLimits =
        st.hourlyLimits ∧
      (postFieldChecksStage env st hourlyKey hourlyData behaviorData req).state.scoreTracking =
        st.scoreTracking) ∧
    (isSuccess (postFieldChecksStage env st hourlyKey hourlyData behaviorData req).resp = true →
      env.commitOk = true ∧
      (postFieldChecksStage env st hourlyKey hourlyData behaviorData req).commitAttempted = true) := by
  simp only [postFieldChecksStage]
  repeat' split
  all_goals
    first
      | exact ⟨fun _ => ⟨rfl, rfl⟩, fun h => Bool.noConfusion h⟩
      | exact commitStage_frame env st hourlyKey hourlyData behaviorData req

theorem validationStage_frame (hmac : String → String → String) (sec : Secrets)
    (env : PostEnv) (st : ServerState) (hourlyKey : String) (hourlyData : HourEntry)
    (behaviorData : BehaviorEntry) (req : PostRequest) :
    (isSuccess (postValidationStage hmac sec env st hourlyKey hourlyData behaviorData req).resp = false →
      (postValidationStage hmac sec env st hourlyKey hourlyData behaviorData req).state.hourlyLimits =
        st.hourlyLimits ∧
      (postValidationStage hmac sec env st hourlyKey hourlyData behaviorData req).state.scoreTracking =
        st.scoreTracking) ∧
    (isSuccess (postValidationStage hmac sec env st hourlyKey hourlyData behaviorData req).resp = true →
      env.commitOk = true ∧
      (postValidationStage hmac sec env st hourlyKey hourlyData behaviorData req).commitAttempted = true) := by
  simp only [postValidationStage]
  repeat' split
  all_goals
    first
      | exact ⟨fun _ => ⟨rfl, rfl⟩, fun h => Bool.noConfusion h⟩
      | exact fieldChecksStage_frame env _ hourlyKey hourlyData behaviorData req

/-- C7: the hourly counters and the per-identity behavior counters are left
unchanged by every request whose response is not a success — rejected at
any layer, deduplicated, or failed at the blockchain commit — and a success
response can only arise from an invoked, successful blockchain commit, so
the counters advance only after a fully successful downstream commit. -/
theorem counters_advance_only_on_successful_commit
    (hmac : String → String → String) (sec : Secrets) (env : PostEnv)
    (st : ServerState) (req : PostRequest) :
    (isSuccess (post hmac sec env st req).resp = false →
      (post hmac sec env st req).state.hourlyLimits = st.hourlyLimits ∧
      (post hmac sec env st req).state.scoreTracking = st.scoreTracking) ∧
    (isSuccess (post hmac sec env st req).resp = true →
      env.commitOk = true ∧ (post hmac sec env st req).commitAttempted = true) := by
  simp only [post]
  repeat' split
  all_goals
    first
      | exact ⟨fun _ => ⟨rfl, rfl⟩, fun h => Bool.noConfusion h⟩
      | exact validationStage_frame hmac sec env st _ _ _ req

theorem validateKeys_spec
    (hmac : String → String → String) (sec : Secrets) (st : CryptoState)
    (keys : ValidationKeys) (req : ValidationRequest) :
    let signed := signClientKeys hmac sec keys
    let t := validateTemporalKey hmac sec.temporal st.usedTemporalKeys
      signed.temporalKey req.timestamp
    let p := validatePayloadKey hmac sec.payload st.usedPayloadKeys
      signed.payloadKey req.playerAddress req.scoreAmount req.transactionAmount
    let i := validateIdentityKey hmac sec.identity st.usedIdentityKeys
      signed.identityKey req.playerAddress req.timestamp
    let n : Nat := (if t.valid then 1 else 0) + (if p.valid then 1 else 0) +
      (if i.valid then 1 else 0)
    let out := validateKeys hmac sec st keys req
    (out.1.securityLevel =
      if n = 3 then .HIGH else if n = 2 then .MEDIUM else if n = 1 then .LOW else .FAILED) ∧
    (out.1.valid = true ↔ n = 3) ∧
    (out.1.valid = true → out.2 = markKeysAsUsed st signed) ∧
    (out.1.valid = false → out.2 = st) := by
  intro signed t p i n out
  have hval : out.1.valid = decide (n = 3) := rfl
  have hst : out.2 = if n = 3 then markKeysAsUsed st signed else st := rfl
  refine ⟨rfl, ?_, ?_, ?_⟩
  · rw [hval]; exact decide_eq_true_iff
  · intro hv
    have h3 : n = 3 := by rwa [hval, decide_eq_true_eq] at hv
    rw [hst, if_pos h3]
  · intro hv
    have h3 : ¬ n = 3 := by
      intro h
      rw [hval, h] at hv
      simp at hv
    rw [hst, if_neg h3]

/-- C4: for every `validateKeys` call, the returned security level is
determined by the number of per-key validations that passed (3 → HIGH,
2 → MEDIUM, 1 → LOW, 0 → FAILED), `valid` holds exactly at three passes,
and the state is updated by inserting all three (server-signed) key strings
together exactly when the result is valid — otherwise it is untouched, so a
proper subset is never marked. -/
theorem security_level_counts_and_atomic_marking
    (hmac : String → String → String) (sec : Secrets) (st : CryptoState)
    (keys : ValidationKeys) (req : ValidationRequest) :
    let signed := signClientKeys hmac sec keys
    let t := validateTemporalKey hmac sec.temporal st.usedTemporalKeys
      signed.temporalKey req.timestamp
    let p := validatePayloadKey hmac sec.payload st.usedPayloadKeys
      signed.payloadKey req.playerAddress req.scoreAmount req.transactionAmount
    let i := validateIdentityKey hmac sec.identity st.usedIdentityKeys
      signed.identityKey req.playerAddress req.timestamp
    let n : Nat := (if t.valid then 1 else 0) + (if p.valid then 1 else 0) +
      (if i.valid then 1 else 0)
    let out := validateKeys hmac sec st keys req
    (out.1.securityLevel =
      if n = 3 then .HIGH else if n = 2 then .MEDIUM else if n = 1 then .LOW else .FAILED) ∧
    (out.1.valid = true ↔ n = 3) ∧
    (out.1.valid = true → out.2 = markKeysAsUsed st signed) ∧
    (out.1.valid = false → out.2 = st) :=
  validateKeys_spec hmac sec st keys req

def keys4C : ValidationKeys := generateClientValidationKeys addrC 300 1 5000000 "w1" "w2" "w3"

def req4C : ValidationRequest := ⟨addrC, 300, 1, 5000000⟩

/-- Witness for C4 at a concrete accepted triple: the result is valid and
all three server-signed keys are marked together. -/
theorem security_level_counts_witness :
    (validateKeys hmacC secretsC emptyCryptoState keys4C req4C).1.valid = true ∧
    (validateKeys hmacC secretsC emptyCryptoState keys4C req4C).2 =
      markKeysAsUsed emptyCryptoState (signClientKeys hmacC secretsC keys4C) := by
  have h := security_level_counts_and_atomic_marking hmacC secretsC emptyCryptoState keys4C req4C
  exact ⟨by decide, h.2.2.1 (by decide)⟩

def env7 : PostEnv :=
  { originValid := false, ipAllowed := true, playerAllowed := true
    csrfToken := none, addressValid := true, privateKeySet := true
    serverNonce := "n7", commitOk := true, now := 0 }

/-- Witness for C7 at a concrete rejected request (origin rejection): both
counter maps are untouched. -/
theorem counters_unchanged_witness :
    (post hmacC secretsC env7 st5 ⟨addrC, 100, 1, none⟩).state.hourlyLimits = st5.hourlyLimits ∧
    (post hmacC secretsC env7 st5 ⟨addrC, 100, 1, none⟩).state.scoreTracking = st5.scoreTracking := by
  exact (counters_advance_only_on_successful_commit hmacC secretsC env7 st5
    ⟨addrC, 100, 1, none⟩).1 (by decide)

theorem strLen_empty_ne (s : String) (h : strLen s = 32) : s ≠ "" := by
  intro he
  rw [he] at h
  exact absurd h (by decide)

theorem nonce_reuse_rejected (hmac : String → String → String) (sec : Secrets) (now : Int)
    (st : CryptoState) (r : ClientValidationRequest) (rand : KeyRandomness)
    (h1 : st.usedNonces.contains r.clientNonce = true) (h2 : strLen r.clientNonce = 32) :
    (validateClientRequest hmac sec now st r rand).1.valid = false ∧
    "Nonce has already been used" ∈ (validateClientRequest hmac sec now st r rand).1.errors := by
  have hne : clientRequestNonceErrors hmac sec now st r = ["Nonce has already been used"] := by
    unfold clientRequestNonceErrors
    rw [if_neg, if_pos h1]
    push_neg
    exact ⟨strLen_empty_ne r.clientNonce h2, h2⟩
  have hmem : "Nonce has already been used" ∈ clientRequestErrors hmac sec now st r := by
    unfold clientRequestErrors
    rw [hne]
    simp
  have hnil : clientRequestErrors hmac sec now st r ≠ [] := List.ne_nil_of_mem hmem
  unfold validateClientRequest
  rw [if_neg hnil]
  exact ⟨rfl, hmem⟩

theorem clientRequestErrors_nil_nonce (hmac : String → String → String) (sec : Secrets)
    (now : Int) (st : CryptoState) (r : ClientValidationRequest)
    (h : clientRequestErrors hmac sec now st r = []) :
    clientRequestNonceErrors hmac sec now st r = [] := by
  unfold clientRequestErrors at h
  rcases List.append_eq_nil.mp h with ⟨h, -⟩
  rcases List.append_eq_nil.mp h with ⟨h, -⟩
  exact (List.append_eq_nil.mp h).2

theorem nonceErrors_nil_len (hmac : String → String → String) (sec : Secrets)
    (now : Int) (st : CryptoState) (r : ClientValidationRequest)
    (h : clientRequestNonceErrors hmac sec now st r = []) :
    strLen r.clientNonce = 32 := by
  unfold clientRequestNonceErrors at h
  by_cases hc : r.clientNonce = "" ∨ strLen r.clientNonce ≠ 32
  · rw [if_pos hc] at h
    exact absurd h (by simp)
  · push_neg at hc
    exact hc.2

/-- C3: in `validateClientRequest` — the only operation that touches the
used-nonce set — a client nonce already present in the set is rejected with
the reuse error; a nonce is recorded exactly when the whole request is
accepted (a rejected request leaves the state untouched, so checking and
marking form one step); after an accepted request, any second presentation
of the same nonce fails; and `validateKeys` never modifies the used-nonce
set. -/
theorem nonce_single_use_marking
    (hmac : String → String → String) (sec : Secrets) (now now2 : Int)
    (st : CryptoState) (r r2 : ClientValidationRequest) (rand rand2 : KeyRandomness) :
    (st.usedNonces.contains r.clientNonce = true → strLen r.clientNonce = 32 →
      (validateClientRequest hmac sec now st r rand).1.valid = false ∧
      "Nonce has already been used" ∈ (validateClientRequest hmac sec now st r rand).1.errors) ∧
    ((validateClientRequest hmac sec now st r rand).1.valid = true →
      ((validateClientRequest hmac sec now st r rand).2).usedNonces.contains r.clientNonce = true) ∧
    ((validateClientRequest hmac sec now st r rand).1.valid = false →
      (validateClientRequest hmac sec now st r rand).2 = st) ∧
    ((validateClientRequest hmac sec now st r rand).1.valid = true →
      r2.clientNonce = r.clientNonce →
      (validateClientRequest hmac sec now2
        (validateClientRequest hmac sec now st r rand).2 r2 rand2).1.valid = false) ∧
    (∀ (cst : CryptoState) (keys : ValidationKeys) (vreq : ValidationRequest),
      ((validateKeys hmac sec cst keys vreq).2).usedNonces = cst.usedNonces) := by
  refine ⟨nonce_reuse_rejected hmac sec now st r rand, ?_, ?_, ?_, ?_⟩
  · intro hv
    unfold validateClientRequest at hv ⊢
    by_cases h : clientRequestErrors hmac sec now st r = []
    · rw [if_pos h]
      simp
    · rw [if_neg h] at hv
      exact absurd hv (by simp)
  · intro hv
    unfold validateClientRequest at hv ⊢
    by_cases h : clientRequestErrors hmac sec now st r = []
    · rw [if_pos h] at hv
      exact absurd hv (by simp)
    · rw [if_neg h]
  · intro hv h2
    have h : clientRequestErrors hmac sec now st r = [] := by
      by_contra hne
      unfold validateClientRequest at hv
      rw [if_neg hne] at hv
      exact absurd hv (by simp)
    have hlen : strLen r.clientNonce = 32 :=
      nonceErrors_nil_len hmac sec now st r (clientRequestErrors_nil_nonce hmac sec now st r h)
    have hstate : (validateClientRequest hmac sec now st r rand).2.usedNonces =
        r.clientNonce :: st.usedNonces := by
      unfold validateClientRequest
      rw [if_pos h]
    have hcontains : ((validateClientRequest hmac sec now st r rand).2).usedNonces.contains
        r2.clientNonce = true := by
      rw [hstate, h2]
      simp
    have hlen2 : strLen r2.clientNonce = 32 := by rw [h2]; exact hlen
    exact (nonce_reuse_rejected hmac sec now2 _ r2 rand2 hcontains hlen2).1
  · intro cst keys vreq
    have h := validateKeys_spec hmac sec cst keys vreq
    by_cases hv : (validateKeys hmac sec cst keys vreq).1.valid = true
    · rw [h.2.2.1 hv]
      rfl
    · rw [h.2.2.2 (Bool.not_eq_true _ ▸ hv)]

/-- A 32-hex-character client nonce that passes the challenge validation
under `hmacC` for `addrC` at clock value `10^10` ms. -/
def nonce3C : String :=
  "00989680" ++ strTake (hmacC secretsC.temporal (addrC ++ "-" ++ "00989680")) 8 ++
    "4a4b4c4d4e4f0135"

def req3C : ClientValidationRequest := ⟨addrC, 100, 1, 10000000000, nonce3C⟩

def rand3C : KeyRandomness := ⟨"r1", "r2", "r3"⟩

/-- Witness for C3 at a concrete request: the first presentation of the
nonce is accepted, the second presentation of the same nonce fails. -/
theorem nonce_single_use_witness :
    (validateClientRequest hmacC secretsC 10000000000 emptyCryptoState req3C rand3C).1.valid = true ∧
    (validateClientRequest hmacC secretsC 10000000000
      (validateClientRequest hmacC secretsC 10000000000 emptyCryptoState req3C rand3C).2
      req3C rand3C).1.valid = false := by
  have h := nonce_single_use_marking hmacC secretsC 10000000000 10000000000 emptyCryptoState
    req3C req3C rand3C rand3C
  exact ⟨by decide, h.2.2.2.1 (by decide) rfl⟩

theorem validateTemporalKey_ok (hmac : String → String → String) (secret : String)
    (used : List String) (data : String) (ts requestTs : Int)
    (h1 : splitKey (data ++ ":" ++ hmac secret data) = some (data, hmac secret data))
    (h2 : used.contains (data ++ ":" ++ hmac secret data) = false)
    (h3 : jsParseIntDec ((jsSplit '-' data).headD "") = some ts) :
    validateTemporalKey hmac secret used (data ++ ":" ++ hmac secret data) requestTs =
      if (requestTs - ts).natAbs > 2 * 60 * 1000 then
        ⟨false, some "Temporal key expired or invalid timestamp"⟩
      else ⟨true, none⟩ := by
  unfold validateTemporalKey
  rw [h1]
  dsimp only
  rw [if_neg (fun hc => by rw [h2] at hc; exact Bool.noConfusion hc), if_neg (by simp), h3]

theorem validatePayloadKey_ok (hmac : String → String → String) (secret : String)
    (used : List String) (data addr ds dt salt : String) (score tx : Int)
    (h1 : splitKey (data ++ ":" ++ hmac secret data) = some (data, hmac secret data))
    (h2 : used.contains (data ++ ":" ++ hmac secret data) = false)
    (h3 : jsSplit '-' data = [addr, ds, dt, salt])
    (h4 : jsParseIntDec ds = some score)
    (h5 : jsParseIntDec dt = some tx) :
    validatePayloadKey hmac secret used (data ++ ":" ++ hmac secret data) addr score tx =
      ⟨true, none⟩ := by
  unfold validatePayloadKey
  rw [h1]
  dsimp only
  rw [if_neg (fun hc => by rw [h2] at hc; exact Bool.noConfusion hc), if_neg (by simp), h3]
  rw [if_neg (by simp), if_neg (by simp), if_neg (by simp [h4]), if_neg (by simp [h5])]

theorem validateIdentityKey_ok (hmac : String → String → String) (secret : String)
    (used : List String) (data addr dts sess : String) (its requestTs : Int)
    (h1 : splitKey (data ++ ":" ++ hmac secret data) = some (data, hmac secret data))
    (h2 : used.contains (data ++ ":" ++ hmac secret data) = false)
    (h3 : jsSplit '-' data = [addr, dts, sess])
    (h4 : jsParseIntDec dts = some its) :
    validateIdentityKey hmac secret used (data ++ ":" ++ hmac secret data) addr requestTs =
      if (requestTs - its).natAbs > 2 * 60 * 1000 then
        ⟨false, some "Identity key timestamp too old"⟩
      else ⟨true, none⟩ := by
  unfold validateIdentityKey
  rw [h1]
  dsimp only
  rw [if_neg (fun hc => by rw [h2] at hc; exact Bool.noConfusion hc), if_neg (by simp), h3]
  rw [if_neg (by simp), if_neg (by simp)]
  have hg : ([addr, dts, sess].getD 1 "") = dts := rfl
  rw [hg, h4]

/-- "Otherwise-valid" side conditions for a client key triple built by
`generateClientValidationKeys addr score tx ts nonce salt sess`: the
server-signed forms of the three key strings parse back into their data and
signature parts (no separator occurs inside the data or the HMAC output),
none of them is in a used-set yet, and the embedded decimal fields parse
back to the numbers they render.  All components are decidable and hold for
ordinary addresses, amounts and hex random parts. -/
def clientKeysWellFormed (hmac : String → String → String) (sec : Secrets) (st : CryptoState)
    (addr : String) (score tx ts : Int) (nonce salt sess : String) : Prop :=
  splitKey ((generateClientValidationKeys addr score tx ts nonce salt sess).temporalKey ++ ":" ++
      hmac sec.temporal (generateClientValidationKeys addr score tx ts nonce salt sess).temporalKey) =
    some ((generateClientValidationKeys addr score tx ts nonce salt sess).temporalKey,
      hmac sec.temporal (generateClientValidationKeys addr score tx ts nonce salt sess).temporalKey) ∧
  splitKey ((generateClientValidationKeys addr score tx ts nonce salt sess).payloadKey ++ ":" ++
      hmac sec.payload (generateClientValidationKeys addr score tx ts nonce salt sess).payloadKey) =
    some ((generateClientValidationKeys addr score tx ts nonce salt sess).payloadKey,
      hmac sec.payload (generateClientValidationKeys addr score tx ts nonce salt sess).payloadKey) ∧
  splitKey ((generateClientValidationKeys addr score tx ts nonce salt sess).identityKey ++ ":" ++
      hmac sec.identity (generateClientValidationKeys addr score tx ts nonce salt sess).identityKey) =
    some ((generateClientValidationKeys addr score tx ts nonce salt sess).identityKey,
      hmac sec.identity (generateClientValidationKeys addr score tx ts nonce salt sess).identityKey) ∧
  st.usedTemporalKeys.contains
    ((generateClientValidationKeys addr score tx ts nonce salt sess).temporalKey ++ ":" ++
      hmac sec.temporal (generateClientValidationKeys addr score tx ts nonce salt sess).temporalKey) = false ∧
  st.usedPayloadKeys.contains
    ((generateClientValidationKeys addr score tx ts nonce salt sess).payloadKey ++ ":" ++
      hmac sec.payload (generateClientValidationKeys addr score tx ts nonce salt sess).payloadKey) = false ∧
  st.usedIdentityKeys.contains
    ((generateClientValidationKeys addr score tx ts nonce salt sess).identityKey ++ ":" ++
      hmac sec.identity (generateClientValidationKeys addr score tx ts nonce salt sess).identityKey) = false ∧
  jsParseIntDec ((jsSplit '-' (generateClientValidationKeys addr score tx ts nonce salt sess).temporalKey).headD "") =
    some ts ∧
  jsSplit '-' (generateClientValidationKeys addr score tx ts nonce salt sess).payloadKey =
    [addr, toString score, toString tx, salt] ∧
  jsParseIntDec (toString score) = some score ∧
  jsParseIntDec (toString tx) = some tx ∧
  jsSplit '-' (generateClientValidationKeys addr score tx ts nonce salt sess).identityKey =
    [addr, toString ts, sess] ∧
  jsParseIntDec (toString ts) = some ts

/-- C6: for every otherwise-valid key triple, `validateKeys` rejects the
triple whose embedded timestamp is 121 seconds older than the request
timestamp (the temporal-key freshness error is reported, and the identity
key fails its identical 2-minute window too, leaving only the payload key
valid), and accepts the triple whose embedded timestamp is 119 seconds old:
the freshness boundary is 120 seconds. -/
theorem key_freshness_boundary
    (hmac : String → String → String) (sec : Secrets) (st : CryptoState) (now : Int)
    (addr nonce salt sess : String) (score tx : Int)
    (hLate : clientKeysWellFormed hmac sec st addr score tx (now - 121000) nonce salt sess)
    (hFresh : clientKeysWellFormed hmac sec st addr score tx (now - 119000) nonce salt sess) :
    (validateKeys hmac sec st
      (generateClientValidationKeys addr score tx (now - 121000) nonce salt sess)
      ⟨addr, score, tx, now⟩).1.valid = false ∧
    "Temporal key validation failed: Temporal key expired or invalid timestamp" ∈
      (validateKeys hmac sec st
        (generateClientValidationKeys addr score tx (now - 121000) nonce salt sess)
        ⟨addr, score, tx, now⟩).1.errors ∧
    (validateKeys hmac sec st
      (generateClientValidationKeys addr score tx (now - 119000) nonce salt sess)
      ⟨addr, score, tx, now⟩).1.valid = true := by
  obtain ⟨l1, l2, l3, l4, l5, l6, l7, l8, l9, l10, l11, l12⟩ := hLate
  obtain ⟨f1, f2, f3, f4, f5, f6, f7, f8, f9, f10, f11, f12⟩ := hFresh
  have eTl := validateTemporalKey_ok hmac sec.temporal st.usedTemporalKeys
    (generateClientValidationKeys addr score tx (now - 121000) nonce salt sess).temporalKey
    (now - 121000) now l1 l4 l7
  have ePl := validatePayloadKey_ok hmac sec.payload st.usedPayloadKeys
    (generateClientValidationKeys addr score tx (now - 121000) nonce salt sess).payloadKey
    addr (toString score) (toString tx) salt score tx l2 l5 l8 l9 l10
  have eIl := validateIdentityKey_ok hmac sec.identity st.usedIdentityKeys
    (generateClientValidationKeys addr score tx (now - 121000) nonce salt sess).identityKey
    addr (toString (now - 121000)) sess (now - 121000) now l3 l6 l11 l12
  have eTf := validateTemporalKey_ok hmac sec.temporal st.usedTemporalKeys
    (generateClientValidationKeys addr score tx (now - 119000) nonce salt sess).temporalKey
    (now - 119000) now f1 f4 f7
  have ePf := validatePayloadKey_ok hmac sec.payload st.usedPayloadKeys
    (generateClientValidationKeys addr score tx (now - 119000) nonce salt sess).payloadKey
    addr (toString score) (toString tx) salt score tx f2 f5 f8 f9 f10
  have eIf := validateIdentityKey_ok hmac sec.identity st.usedIdentityKeys
    (generateClientValidationKeys addr score tx (now - 119000) nonce salt sess).identityKey
    addr (toString (now - 119000)) sess (now - 119000) now f3 f6 f11 f12
  rw [if_pos (by omega)] at eTl eIl
  rw [if_neg (by omega)] at eTf eIf
  unfold validateKeys
  dsimp only [signClientKeys]
  rw [eTl, ePl, eIl, eTf, ePf, eIf]
  simp

/-- Witness for C6 at a concrete triple and clock: the 121-second-old triple
is rejected and the 119-second-old triple is accepted. -/
theorem key_freshness_witness :
    (validateKeys hmacC secretsC emptyCryptoState
      (generateClientValidationKeys addrC 150 2 (1700000000000 - 121000) "ab12" "cd34" "ef56")
      ⟨addrC, 150, 2, 1700000000000⟩).1.valid = false ∧
    (validateKeys hmacC secretsC emptyCryptoState
      (generateClientValidationKeys addrC 150 2 (1700000000000 - 119000) "ab12" "cd34" "ef56")
      ⟨addrC, 150, 2, 1700000000000⟩).1.valid = true := by
  have h := key_freshness_boundary hmacC secretsC emptyCryptoState 1700000000000
    addrC "ab12" "cd34" "ef56" 150 2 (by unfold clientKeysWellFormed; decide)
    (by unfold clientKeysWellFormed; decide)
  exact ⟨h.1, h.2.2⟩

/-- C9 (amended): under the pre-suffix checks passing, the predictability
rejection of `validateNonceWithChallenge` applies exactly to the value the
JS `parseInt` actually produced — the binary64 rounding of the suffix — and
that value agrees with the exact integer reading of the suffix only up to
`2 ^ 53`. -/
theorem suffix_check_uses_rounded_value
    (hmac : String → String → String) (tsec : String) (now : Int) (nonce addr : String)
    (ts m : Nat)
    (hfmt : isHex32 nonce = true)
    (hsig : strTake (strDrop (strTake nonce 16) 8) 8 =
      strTake (hmac tsec (addr ++ "-" ++ strTake (strTake nonce 16) 8)) 8)
    (hts : jsParseIntHex (strTake (strTake nonce 16) 8) = some ts)
    (hage1 : now - (ts : Int) * 1000 ≤ 5 * 60 * 1000)
    (hage2 : -(60 * 1000) ≤ now - (ts : Int) * 1000)
    (hlen : strLen (strDrop nonce 16) = 16)
    (hparse : jsParseIntHex (strDrop nonce 16) = some m) :
    (validateNonceWithChallenge hmac tsec now nonce addr =
      ⟨false, some "Predictable nonce suffix"⟩ ↔ (m = 0 ∨ m % 1000 = 0)) ∧
    (∀ k : Nat, k ≤ 2 ^ 53 → roundF64 k = k) := by
  constructor
  · unfold validateNonceWithChallenge
    rw [if_neg (by simp [hfmt])]
    dsimp only
    rw [if_neg (fun hc => hc hsig), hts]
    dsimp only
    rw [if_neg (by omega), if_neg (by omega)]
    dsimp only
    rw [if_neg (by simp [hlen]), hparse]
    dsimp only
    constructor
    · intro h
      by_cases hc : (m = 0 ∨ m % 1000 = 0)
      · exact hc
      · rw [if_neg hc] at h
        exact absurd h (by simp)
    · intro hc
      rw [if_pos hc]
  · intro k hk
    rcases Nat.lt_or_ge k (2 ^ 53) with h | h
    · unfold roundF64
      rw [if_pos h]
    · have hke : k = 2 ^ 53 := le_antisymm hk h
      subst hke
      decide

/-- A nonce with a correctly signed challenge part (under `hmacC`) whose
suffix reads as 1000 — a small, exactly representable multiple of 1000. -/
def nonce9small : String :=
  "00989680" ++ strTake (hmacC secretsC.temporal (addrC ++ "-" ++ "00989680")) 8 ++
    "00000000000003e8"

/-- Witness for C9's amended statement at a concrete nonce: the suffix value
1000 is rejected as predictable, and rounding is the identity on it. -/
theorem suffix_check_witness :
    validateNonceWithChallenge hmacC secretsC.temporal 10000000000 nonce9small addrC =
      ⟨false, some "Predictable nonce suffix"⟩ ∧ roundF64 1000 = 1000 := by
  have h := suffix_check_uses_rounded_value hmacC secretsC.temporal 10000000000 nonce9small addrC
    10000000 1000 (by decide) (by decide) (by decide) (by decide) (by decide) (by decide) (by decide)
  exact ⟨h.1.mpr (Or.inr (by decide)), h.2 1000 (by decide)⟩
